import Mathlib

set_option maxHeartbeats 1000000

namespace Jobtract

/-! Shallow embedding of the authentication and session-security core of the
Jobtract repository: `src/api/security_config.py`, `src/backend/user_model.py`
and `src/api/auth_routes.py`.  Timestamps are integers (seconds).  The model
follows the in-process (non-Redis) code paths, i.e. `use_redis = false` /
`redis_client = None`.  Python dictionaries with string keys are modelled as
association lists; dictionaries never hold duplicate keys, and all updates go
through `aset` / `aerase`, which preserve that. -/

/-- Surrogate for a Python exception escaping to the caller.  The only
exception the embedding needs to distinguish is the `TypeError` raised by
`hmac.compare_digest` when a `str` argument is not pure ASCII. -/
inductive PyError
  | typeError
  deriving DecidableEq, Repr

def isAsciiChar (c : Char) : Bool := decide (c.val < 128)

def isAsciiStr (s : String) : Bool := s.data.all isAsciiChar

/-- Python truthiness of an optional string value: `None` and `''` are falsy. -/
def pyTruthy : Option String → Bool
  | none => false
  | some s => s != ""

/-- Model of `secrets.compare_digest` (= `hmac.compare_digest`) on `str`
arguments: equality, computed in constant time; raises `TypeError` unless both
strings are ASCII-only. -/
def compare_digest (a b : String) : Except PyError Bool :=
  if isAsciiStr a && isAsciiStr b then .ok (a == b) else .error .typeError

/-! ### Association lists (Python `dict` with `str` keys) -/

def alookup {α : Type} : List (String × α) → String → Option α
  | [], _ => none
  | (k0, v0) :: rest, k => if k0 = k then some v0 else alookup rest k

def aset {α : Type} : List (String × α) → String → α → List (String × α)
  | [], k, v => [(k, v)]
  | (k0, v0) :: rest, k, v =>
    if k0 = k then (k, v) :: rest else (k0, v0) :: aset rest k v

def aerase {α : Type} : List (String × α) → String → List (String × α)
  | [], _ => []
  | (k0, v0) :: rest, k => if k0 = k then rest else (k0, v0) :: aerase rest k

/-! ### Hex encoding (`bytes.hex()`) -/

def hexDigit (n : Nat) : Char := ("0123456789abcdef".data).getD n '0'

def byteToHex (b : Fin 256) : List Char := [hexDigit (b.val / 16), hexDigit (b.val % 16)]

/-- Model of `bytes.hex()` applied to a digest (a list of bytes). -/
def bytesToHex (l : List (Fin 256)) : String := ⟨(l.map byteToHex).flatten⟩

/-! ### `EnhancedHasher` (`src/api/security_config.py`, lines 94-122)

The PBKDF2-HMAC-SHA256 primitive (`hashlib.pbkdf2_hmac`, library code external
to the repository) is a parameter of the embedding: a function from password,
salt and round count to a digest (a list of bytes).  Everything the repository
itself does around it — hex encoding, salt plumbing, the constant-time
comparison — is modelled concretely. -/

structure HashResult where
  hash : String
  salt : String
  rounds : Nat
  algorithm : String
  deriving DecidableEq, Repr

/-- Model of `EnhancedHasher.hash_password` with an explicit salt (the
`salt is None` branch draws a random salt, which the theorems quantify over).
The source default for `rounds` is 100000. -/
def EnhancedHasher.hash_password (pbkdf2 : String → String → Nat → List (Fin 256))
    (password salt : String) (rounds : Nat) : HashResult :=
  { hash := bytesToHex (pbkdf2 password salt rounds)
    salt := salt
    rounds := rounds
    algorithm := "pbkdf2_sha256" }

/-- Model of `EnhancedHasher.verify_password`: recompute the hash and compare
with `secrets.compare_digest` (computed hash first, stored hash second). -/
def EnhancedHasher.verify_password (pbkdf2 : String → String → Nat → List (Fin 256))
    (password stored_hash salt : String) (rounds : Nat) : Except PyError Bool :=
  compare_digest (EnhancedHasher.hash_password pbkdf2 password salt rounds).hash stored_hash

/-! ### `SecurityConfig` (`src/api/security_config.py`, lines 47-92)

Only the numeric knobs consumed by the modelled operations are carried.
Source defaults: `max_login_attempts` 3 (production) / 5, `lockout_duration`
1800 / 900 seconds, `token_expiry_hours` 8 / 24, `refresh_token_expiry_days`
7 / 30, `session_timeout_minutes` 30. -/

structure SecurityConfig where
  max_login_attempts : Nat
  lockout_duration : Int
  token_expiry_hours : Int
  refresh_token_expiry_days : Int
  session_timeout_minutes : Int
  deriving DecidableEq, Repr

/-! ### `EnhancedTokenManager` (`src/api/security_config.py`, lines 157-312)

A JWT is modelled as either a payload signed under a key, or a structurally
malformed string; `jwt.encode` under key `k` produces `JwtToken.signed p k`,
and `jwt.decode` with key `key` succeeds exactly on `JwtToken.signed p key`
(PyJWT raises `InvalidTokenError` on garbage or a signature mismatch, and
`ExpiredSignatureError` when `exp ≤ now` and expiry verification is on). -/

inductive TokenType
  | access
  | refresh
  deriving DecidableEq, Repr

structure TokenPayload where
  user_id : String
  email : String
  /-- The access-token payload carries a `role` claim; the refresh-token
  payload built by `generate_refresh_token` has none, hence the `Option`. -/
  role : Option String
  session_id : String
  iat : Int
  exp : Int
  iss : String
  type : TokenType
  jti : Option String
  deriving DecidableEq, Repr

inductive JwtToken
  | signed (payload : TokenPayload) (key : String)
  | malformed
  deriving DecidableEq, Repr

inductive DecodeResult
  | ok (p : TokenPayload)
  | expiredSig
  | invalidTok
  deriving DecidableEq, Repr

/-- Model of `jwt.decode(token, key, algorithms=[...])`; passing
`verify_exp = false` models `options={"verify_exp": False}`.  The `now`
argument is ignored when `verify_exp` is off. -/
def jwtDecode (token : JwtToken) (key : String) (verify_exp : Bool) (now : Int) :
    DecodeResult :=
  match token with
  | .malformed => .invalidTok
  | .signed p k =>
    if k = key then
      if verify_exp && decide (p.exp ≤ now) then .expiredSig else .ok p
    else .invalidTok

/-- An entry of `EnhancedTokenManager.active_sessions`.  The source also
stores a 16-hex-character prefix of the SHA-256 of the token string
(`token_hash`); no code path in the repository ever reads it, and it is not
modelled. -/
structure SessionInfo where
  user_id : String
  created_at : Int
  last_activity : Int
  deriving DecidableEq, Repr

/-- Mutable state of an `EnhancedTokenManager`: the in-memory blacklist set
(`blacklisted_tokens`, a `set` of jti strings, modelled as a list queried
through `List.contains`) and the `active_sessions` dict. -/
structure TMState where
  blacklisted_tokens : List String
  active_sessions : List (String × SessionInfo)
  deriving DecidableEq, Repr

inductive VerifyError
  | invalidToken
  | expiredToken
  | revokedToken
  | sessionExpired
  deriving DecidableEq, Repr

/-- The dict returned by `EnhancedTokenManager.verify_token`.  The source's
`error` message strings are represented by the `VerifyError` they stand for:
"Token has been revoked" / "Session has expired" / "Token has expired" /
`str(InvalidTokenError)`. -/
structure VerifyResult where
  valid : Bool
  payload : Option TokenPayload
  expired : Bool
  error : Option VerifyError
  deriving DecidableEq, Repr

/-- Model of `EnhancedTokenManager._is_token_blacklisted` (non-Redis path):
decode ignoring expiry; a decode failure is swallowed (`return False`), a
falsy jti (`None` or `''`) yields `False`, otherwise membership in the
in-memory set. -/
def EnhancedTokenManager.is_token_blacklisted (st : TMState) (secret_key : String)
    (token : JwtToken) : Bool :=
  match jwtDecode token secret_key false 0 with
  | .ok p =>
    match p.jti with
    | none => false
    | some j => if j = "" then false else st.blacklisted_tokens.contains j
  | _ => false

/-- Model of `EnhancedTokenManager._is_session_active`: falsy session id or a
missing entry fail; a timed-out entry (`now - last_activity >
session_timeout_minutes * 60`) is deleted and fails; otherwise
`last_activity` is refreshed to `now` and the check succeeds. -/
def EnhancedTokenManager.is_session_active (st : TMState) (cfg : SecurityConfig)
    (session_id : String) (now : Int) : Bool × TMState :=
  if session_id = "" then (false, st)
  else
    match alookup st.active_sessions session_id with
    | none => (false, st)
    | some sess =>
      if cfg.session_timeout_minutes * 60 < now - sess.last_activity then
        (false, { st with active_sessions := aerase st.active_sessions session_id })
      else
        let touched := aset st.active_sessions session_id { sess with last_activity := now }
        (true, { st with active_sessions := touched })

/-- Model of `EnhancedTokenManager.verify_token`: the blacklist check runs
first, then `jwt.decode` (signature, structure and expiry), then the session
liveness check. -/
def EnhancedTokenManager.verify_token (st : TMState) (cfg : SecurityConfig)
    (secret_key : String) (token : JwtToken) (now : Int) : VerifyResult × TMState :=
  if EnhancedTokenManager.is_token_blacklisted st secret_key token then
    ({ valid := false, payload := none, expired := false, error := some .revokedToken }, st)
  else
    match jwtDecode token secret_key true now with
    | .expiredSig =>
      ({ valid := false, payload := none, expired := true, error := some .expiredToken }, st)
    | .invalidTok =>
      ({ valid := false, payload := none, expired := false, error := some .invalidToken }, st)
    | .ok p =>
      let sa := EnhancedTokenManager.is_session_active st cfg p.session_id now
      if sa.1 then
        ({ valid := true, payload := some p, expired := false, error := none }, sa.2)
      else
        ({ valid := false, payload := none, expired := false, error := some .sessionExpired }, sa.2)

/-- Model of `EnhancedTokenManager.blacklist_token` (non-Redis path): decode
ignoring expiry; on a decode failure the exception is caught and `False` is
returned; a falsy jti also returns `False`; otherwise the jti is added to the
in-memory blacklist set and `True` is returned.  The session map is not
touched. -/
def EnhancedTokenManager.blacklist_token (st : TMState) (secret_key : String)
    (token : JwtToken) : Bool × TMState :=
  match jwtDecode token secret_key false 0 with
  | .ok p =>
    match p.jti with
    | none => (false, st)
    | some j =>
      if j = "" then (false, st)
      else (true, { st with blacklisted_tokens := st.blacklisted_tokens ++ [j] })
  | _ => (false, st)

/-- The `user_data` dict handed to token generation (`user.to_dict()` or the
inline dicts in the source); only the fields the token manager reads. -/
structure UserData where
  id : String
  email : String
  role : String
  deriving DecidableEq, Repr

/-- Model of `EnhancedTokenManager._track_session`. -/
def EnhancedTokenManager.track_session (st : TMState) (session_id user_id : String)
    (now : Int) : TMState :=
  let entry : SessionInfo := { user_id := user_id, created_at := now, last_activity := now }
  { st with active_sessions := aset st.active_sessions session_id entry }

/-- Model of `EnhancedTokenManager.generate_access_token` with an explicit
session id (the `session_id is None` branch draws a random one) and an
explicit jti (`secrets.token_urlsafe(16)` in the source). -/
def EnhancedTokenManager.generate_access_token (st : TMState) (cfg : SecurityConfig)
    (secret_key : String) (user : UserData) (session_id jti : String) (now : Int) :
    JwtToken × TMState :=
  (JwtToken.signed
    { user_id := user.id, email := user.email, role := some user.role,
      session_id := session_id, iat := now,
      exp := now + cfg.token_expiry_hours * 3600, iss := "jobtract-system",
      type := .access, jti := some jti } secret_key,
   EnhancedTokenManager.track_session st session_id user.id now)

/-- Model of `EnhancedTokenManager.generate_refresh_token` (no session
tracking, no `role` claim, day-scaled expiry). -/
def EnhancedTokenManager.generate_refresh_token (cfg : SecurityConfig)
    (secret_key : String) (user : UserData) (session_id jti : String) (now : Int) :
    JwtToken :=
  JwtToken.signed
    { user_id := user.id, email := user.email, role := none,
      session_id := session_id, iat := now,
      exp := now + cfg.refresh_token_expiry_days * 86400, iss := "jobtract-system",
      type := .refresh, jti := some jti } secret_key

/-! ### Verification outcome views, for the ordering claims -/

inductive VerifyOutcome
  | err (e : VerifyError)
  | ok (p : TokenPayload)
  deriving DecidableEq, Repr

/-- The observable outcome of a `VerifyResult`. -/
def VerifyResult.outcome (r : VerifyResult) : VerifyOutcome :=
  match r.payload, r.error with
  | some p, none => .ok p
  | _, some e => .err e
  | _, none => .err .invalidToken

/-- A token payload's jti is recorded in the blacklist (present, non-empty
and a member of the set). -/
def jtiBlacklisted (st : TMState) (p : TokenPayload) : Bool :=
  match p.jti with
  | none => false
  | some j => (j != "") && st.blacklisted_tokens.contains j

/-- Session liveness as a pure observation (no touch, no delete): the id is
truthy, the session exists and is not timed out. -/
def sessionLive (st : TMState) (cfg : SecurityConfig) (sid : String) (now : Int) :
    Bool :=
  (sid != "") &&
    match alookup st.active_sessions sid with
    | none => false
    | some sess => decide (now - sess.last_activity ≤ cfg.session_timeout_minutes * 60)

/-- Modelled from the spec: the verification order the spec prescribes for
`verify(token)` — (1) signature/structure, (2) expiry, (3) blacklist lookup by
tokenId, (4) session liveness — short-circuiting on the first failure. -/
def spec_verify_order (st : TMState) (cfg : SecurityConfig) (key : String)
    (token : JwtToken) (now : Int) : VerifyOutcome :=
  match token with
  | .malformed => .err .invalidToken
  | .signed p k =>
    if k = key then
      if p.exp ≤ now then .err .expiredToken
      else if jtiBlacklisted st p then .err .revokedToken
      else if sessionLive st cfg p.session_id now then .ok p
      else .err .sessionExpired
    else .err .invalidToken

/-- The verification order the code actually implements: blacklist lookup
first (on a decode that ignores expiry, so a token that does not decode is
treated as not blacklisted), then signature/structure, then expiry, then
session liveness. -/
def code_verify_order (st : TMState) (cfg : SecurityConfig) (key : String)
    (token : JwtToken) (now : Int) : VerifyOutcome :=
  match token with
  | .malformed => .err .invalidToken
  | .signed p k =>
    if k = key then
      if jtiBlacklisted st p then .err .revokedToken
      else if p.exp ≤ now then .err .expiredToken
      else if sessionLive st cfg p.session_id now then .ok p
      else .err .sessionExpired
    else .err .invalidToken

/-! ### `AdvancedRateLimiter` (`src/api/security_config.py`, lines 314-487)

In-memory (non-Redis) paths.  `_attempts` and `_ip_attempts` are dicts from
identifier / IP string to `{'timestamps': [...], 'last_success': ...}`. -/

structure AttemptRecord where
  timestamps : List Int
  last_success : Option Int
  deriving DecidableEq, Repr

structure RLState where
  attempts : List (String × AttemptRecord)
  ip_attempts : List (String × AttemptRecord)
  deriving DecidableEq, Repr

/-- A timestamp counts toward the sliding window of a check at `now`:
`current_time - ts < lockout_duration`. -/
def inWindow (cfg : SecurityConfig) (now ts : Int) : Bool :=
  decide (now - ts < cfg.lockout_duration)

/-- Model of Python `min(list)`; the empty case (which would raise
`ValueError`) is only ever reached when `max_login_attempts = 0`, a
configuration the source never produces. -/
def listMin : List Int → Int
  | [] => 0
  | x :: xs => xs.foldl min x

/-- Result dict of `_check_user_rate_limit` / `_check_ip_rate_limit`;
`reset_time` is present only in the limited branch. -/
structure ScopeCheck where
  limited : Bool
  attempts : Nat
  reset_time : Option Int
  deriving DecidableEq, Repr

/-- Model of `AdvancedRateLimiter._check_user_rate_limit` (in-memory path).
The stored bucket is trimmed to the window as a side effect. -/
def AdvancedRateLimiter.check_user_rate_limit (st : RLState) (cfg : SecurityConfig)
    (identifier : String) (now : Int) : ScopeCheck × RLState :=
  match alookup st.attempts identifier with
  | none => ({ limited := false, attempts := 0, reset_time := none }, st)
  | some r =>
    let kept := r.timestamps.filter (inWindow cfg now)
    let st2 := { st with attempts := aset st.attempts identifier { r with timestamps := kept } }
    if cfg.max_login_attempts ≤ kept.length then
      ({ limited := true, attempts := kept.length,
         reset_time := some (listMin kept + cfg.lockout_duration) }, st2)
    else
      ({ limited := false, attempts := kept.length, reset_time := none }, st2)

/-- Model of `AdvancedRateLimiter._check_ip_rate_limit` (in-memory path);
the IP threshold is `max_login_attempts * 3`. -/
def AdvancedRateLimiter.check_ip_rate_limit (st : RLState) (cfg : SecurityConfig)
    (ip_address : String) (now : Int) : ScopeCheck × RLState :=
  match alookup st.ip_attempts ip_address with
  | none => ({ limited := false, attempts := 0, reset_time := none }, st)
  | some r =>
    let kept := r.timestamps.filter (inWindow cfg now)
    let st2 := { st with ip_attempts := aset st.ip_attempts ip_address { r with timestamps := kept } }
    if cfg.max_login_attempts * 3 ≤ kept.length then
      ({ limited := true, attempts := kept.length,
         reset_time := some (listMin kept + cfg.lockout_duration) }, st2)
    else
      ({ limited := false, attempts := kept.length, reset_time := none }, st2)

/-- Combined result dict of `AdvancedRateLimiter.is_rate_limited`. -/
structure RateLimitResult where
  limited : Bool
  reason : Option String
  attempts : Nat
  reset_time : Option Int
  deriving DecidableEq, Repr

/-- Model of `AdvancedRateLimiter.is_rate_limited`: check the user scope,
then (if an address was supplied) the IP scope; the request is limited if
either scope is.  `attempts` is taken from the user check (its dict always
has the key), `reset_time` is `max` of the two `reset_time`s with default 0. -/
def AdvancedRateLimiter.is_rate_limited (st : RLState) (cfg : SecurityConfig)
    (identifier : String) (ip_address : Option String) (now : Int) :
    RateLimitResult × RLState :=
  let ur := AdvancedRateLimiter.check_user_rate_limit st cfg identifier now
  let ir :=
    match ip_address with
    | some ip => AdvancedRateLimiter.check_ip_rate_limit ur.2 cfg ip now
    | none => ({ limited := false, attempts := 0, reset_time := none }, ur.2)
  if ur.1.limited || ir.1.limited then
    ({ limited := true,
       reason := some (if ur.1.limited then "user_limit" else "ip_limit"),
       attempts := ur.1.attempts,
       reset_time := some (max (ur.1.reset_time.getD 0) (ir.1.reset_time.getD 0)) }, ir.2)
  else
    ({ limited := false, reason := none, attempts := ur.1.attempts,
       reset_time := none }, ir.2)

/-- Model of `AdvancedRateLimiter._record_user_attempt` (in-memory path): a
missing entry is created empty; success empties the timestamp bucket and sets
`last_success`; failure appends the current time. -/
def AdvancedRateLimiter.record_user_attempt (st : RLState) (identifier : String)
    (now : Int) (success : Bool) : RLState :=
  let r := (alookup st.attempts identifier).getD { timestamps := [], last_success := none }
  if success then
    let cleared : AttemptRecord := { timestamps := [], last_success := some now }
    { st with attempts := aset st.attempts identifier cleared }
  else
    { st with attempts := aset st.attempts identifier { r with timestamps := r.timestamps ++ [now] } }

/-- Model of `AdvancedRateLimiter._record_ip_attempt` (in-memory path): a
missing entry is created empty; on success nothing else happens (IP history
is deliberately kept); on failure the current time is appended. -/
def AdvancedRateLimiter.record_ip_attempt (st : RLState) (ip_address : String)
    (now : Int) (success : Bool) : RLState :=
  let r := (alookup st.ip_attempts ip_address).getD { timestamps := [], last_success := none }
  let st2 := { st with ip_attempts := aset st.ip_attempts ip_address r }
  if success then st2
  else
    { st2 with ip_attempts := aset st2.ip_attempts ip_address { r with timestamps := r.timestamps ++ [now] } }

/-- Model of `AdvancedRateLimiter.record_attempt`. -/
def AdvancedRateLimiter.record_attempt (st : RLState) (identifier : String)
    (ip_address : Option String) (now : Int) (success : Bool) : RLState :=
  let st1 := AdvancedRateLimiter.record_user_attempt st identifier now success
  match ip_address with
  | some ip => AdvancedRateLimiter.record_ip_attempt st1 ip now success
  | none => st1

/-- The identity-scoped failure bucket, as observed by the checks (an absent
entry reads as the empty bucket). -/
def userBucket (st : RLState) (identifier : String) : List Int :=
  ((alookup st.attempts identifier).map AttemptRecord.timestamps).getD []

/-- The address-scoped failure bucket. -/
def ipBucket (st : RLState) (ip_address : String) : List Int :=
  ((alookup st.ip_attempts ip_address).map AttemptRecord.timestamps).getD []

/-! ### `InputValidator` (`src/api/security_config.py`, lines 554-674)

The call sites modelled here only use string-typed fields, so values are
`Option String` (`none` = the key is absent or holds `None`).  The only
regex `pattern` any call site supplies is the email pattern
`^[^@]+@[^@]+\.[^@]+$`, so a field's `pattern` is modelled as a flag
interpreted by `emailPatternMatch`.  ASCII whitespace is modelled (Python's
`str.strip` / `\s` additionally cover rare Unicode whitespace, which no claim
touches). -/

/-- ASCII model of Python `str.lower()` (no modelled input involves non-ASCII
case mapping). -/
def pyToLower (s : String) : String :=
  ⟨s.data.map (fun c =>
    if decide (65 ≤ c.val) && decide (c.val ≤ 90) then Char.ofNat (c.toNat + 32) else c)⟩

def pyIsSpace (c : Char) : Bool :=
  c = ' ' || c = '\t' || c = '\n' || c = '\r' || decide (c.val = 11) || decide (c.val = 12)

/-- Model of Python `str.strip()`. -/
def pyStrip (s : String) : String :=
  ⟨((s.data.dropWhile pyIsSpace).reverse.dropWhile pyIsSpace).reverse⟩

/-- Model of `html.escape` (with quoting) on a single character; the
apostrophe (code 39) becomes `&#x27;`. -/
def htmlEscapeChar (c : Char) : List Char :=
  if c = '&' then "&amp;".data
  else if c = '<' then "&lt;".data
  else if c = '>' then "&gt;".data
  else if decide (c.val = 34) then "&quot;".data
  else if decide (c.val = 39) then "&#x27;".data
  else [c]

/-- Model of `re.sub(r'\s+', ' ', s)`: collapse each maximal whitespace run
to a single space.  The Boolean tracks whether the previous character was
whitespace. -/
def collapseWsAux : List Char → Bool → List Char
  | [], _ => []
  | c :: rest, prevSpace =>
    if pyIsSpace c then
      if prevSpace then collapseWsAux rest true
      else ' ' :: collapseWsAux rest true
    else c :: collapseWsAux rest false

/-- Model of `InputValidator._sanitize_string`: strip, HTML-escape, drop null
bytes, collapse whitespace. -/
def InputValidator.sanitize_string (s : String) : String :=
  let escaped := ((pyStrip s).data.map htmlEscapeChar).flatten
  let noNull := escaped.filter (fun c => decide (c.val ≠ 0))
  ⟨collapseWsAux noNull false⟩

/-! #### The SQL-injection pattern heuristics (`_contains_sql_injection`)

Each of the source's twelve regexes is one of four shapes, implemented
directly: two whole words separated by a same-line gap (`\bw1\b.*\bw2\b`), a
single whole word (`\bexec\b.*\b` and `\bscript\b.*\b`, whose trailing
`.*\b` always matches at the word's own boundary), a literal substring
(`--`, `#`, `/*`, `*/`), and a word–equals–word shape
(`\bw\b.*=.*\bw\b`).  `.` does not match a newline, hence the
newline-free-gap conditions; `\w` is `[A-Za-z0-9_]`. -/

def isWordChar (c : Char) : Bool := c.isAlphanum || c = '_'

/-- Word `w` occurs in `s` at index `i` with `\b` boundaries on both sides. -/
def isWordOccurrence (s w : List Char) (i : Nat) : Bool :=
  w.isPrefixOf (s.drop i)
    && (decide (i = 0) || !(isWordChar (s.getD (i - 1) ' ')))
    && !(isWordChar (s.getD (i + w.length) ' '))

def noNewlineBetween (s : List Char) (a b : Nat) : Bool :=
  ((s.drop a).take (b - a)).all (fun c => c ≠ '\n')

/-- `re.search(r'\bw1\b.*\bw2\b', s) is not None`. -/
def wordGapWord (s w1 w2 : List Char) : Bool :=
  (List.range (s.length + 1)).any (fun i =>
    isWordOccurrence s w1 i &&
    (List.range (s.length + 1)).any (fun j =>
      decide (i + w1.length ≤ j) && isWordOccurrence s w2 j
        && noNewlineBetween s (i + w1.length) j))

/-- `re.search(r'\bw\b...', s) is not None` for the single-word shapes. -/
def wordOccurs (s w : List Char) : Bool :=
  (List.range (s.length + 1)).any (fun i => isWordOccurrence s w i)

/-- Literal substring search. -/
def containsSub (s sub : List Char) : Bool :=
  (List.range (s.length + 1)).any (fun i => sub.isPrefixOf (s.drop i))

/-- `re.search(r'\bw\b.*=.*\bw\b', s) is not None`. -/
def wordEqWord (s w : List Char) : Bool :=
  (List.range (s.length + 1)).any (fun i =>
    isWordOccurrence s w i &&
    (List.range s.length).any (fun j =>
      decide (i + w.length ≤ j) && decide (s.getD j ' ' = '=') &&
      (List.range (s.length + 1)).any (fun k =>
        decide (j + 1 ≤ k) && isWordOccurrence s w k
          && noNewlineBetween s (i + w.length) k)))

/-- Model of `InputValidator._contains_sql_injection`: the twelve patterns,
searched in the lowercased value. -/
def InputValidator.contains_sql_injection (value : String) : Bool :=
  let s := (pyToLower value).data
  wordGapWord s "union".data "select".data
    || wordGapWord s "select".data "from".data
    || wordGapWord s "insert".data "into".data
    || wordGapWord s "update".data "set".data
    || wordGapWord s "delete".data "from".data
    || wordGapWord s "drop".data "table".data
    || wordGapWord s "alter".data "table".data
    || wordOccurs s "exec".data
    || wordOccurs s "script".data
    || containsSub s "--".data
    || containsSub s "#".data
    || containsSub s "/*".data
    || containsSub s "*/".data
    || wordEqWord s "or".data
    || wordEqWord s "and".data

/-- Model of `re.match(r'^[^@]+@[^@]+\.[^@]+$', s) is not None`: a non-empty
`@`-free part, one `@`, then a `@`-free remainder containing a dot with at
least one character on each side. -/
def emailPatternMatch (s : String) : Bool :=
  let l := s.data
  (List.range l.length).any (fun p =>
    decide (l.getD p ' ' = '@') && decide (1 ≤ p) && (l.take p).all (fun c => c ≠ '@')
      && (let rest := l.drop (p + 1)
          rest.all (fun c => c ≠ '@')
            && (List.range rest.length).any (fun i =>
                decide (rest.getD i ' ' = '.') && decide (1 ≤ i)
                  && decide (i + 2 ≤ rest.length))))

/-- One field's schema entry.  Source defaults: `required` False,
`min_length` 0, `max_length` 1000, no pattern.  All call-site fields have
`type: str` and all modelled inputs are strings, so the `isinstance` branch
always passes and the numeric branch is unreachable. -/
structure FieldRules where
  required : Bool
  min_length : Nat
  max_length : Nat
  hasPattern : Bool
  deriving DecidableEq, Repr

/-- `data.get(field)` on the request payload. -/
def pyGet (d : List (String × Option String)) (f : String) : Option String :=
  (alookup d f).getD none

structure ValidationResult where
  valid : Bool
  errors : List String
  data : List (String × Option String)
  deriving DecidableEq, Repr

/-- One iteration of the field loop in `InputValidator.validate_and_sanitize`:
takes the accumulated `(errors, sanitized_data)` and one schema entry. -/
def InputValidator.processField (data : List (String × Option String))
    (acc : List String × List (String × Option String)) (fr : String × FieldRules) :
    List String × List (String × Option String) :=
  let errors := acc.1
  let sanitized := acc.2
  let field := fr.1
  let rules := fr.2
  let value := pyGet data field
  if rules.required && (value == none || value == some "") then
    (errors ++ [field ++ " is required"], sanitized)
  else if value == none || value == some "" then
    (errors, sanitized ++ [(field, value)])
  else
    match value with
    | none => (errors, sanitized)
    | some s =>
      if s.length < rules.min_length then
        (errors ++ [field ++ " must be at least " ++ toString rules.min_length
          ++ " characters long"], sanitized)
      else if rules.max_length < s.length then
        (errors ++ [field ++ " must be no more than " ++ toString rules.max_length
          ++ " characters long"], sanitized)
      else if rules.hasPattern && !(emailPatternMatch s) then
        (errors ++ [field ++ " format is invalid"], sanitized)
      else
        let sv := InputValidator.sanitize_string s
        if InputValidator.contains_sql_injection sv then
          (errors ++ [field ++ " contains potentially dangerous content"], sanitized)
        else
          (errors, sanitized ++ [(field, some sv)])

/-- Model of `InputValidator.validate_and_sanitize`. -/
def InputValidator.validate_and_sanitize (data : List (String × Option String))
    (schema : List (String × FieldRules)) : ValidationResult :=
  let folded := schema.foldl (InputValidator.processField data) ([], [])
  { valid := folded.1.isEmpty, errors := folded.1, data := folded.2 }

/-! ### `SecurityManager.authenticate_user` (`src/api/security_config.py`,
lines 691-734)

Audit-log side effects (`SecurityAuditor.log_security_event`) only append to
the auditor's ring buffer and never influence any modelled observable; they
are not carried in the state here. -/

inductive AuthOutcome
  | rateLimited (reset_time : Option Int)
  | validationFailed (errors : List String)
  /-- The placeholder success path: the source returns
  `{'id': 1, 'email': email, 'role': 'user'}`. -/
  | success (user : UserData)
  deriving DecidableEq, Repr

/-- The schema literal `SecurityManager.authenticate_user` passes to the
validator: email required with the email regex, password required with
`min_length` 1. -/
def smAuthSchema : List (String × FieldRules) :=
  [("email", { required := true, min_length := 0, max_length := 1000, hasPattern := true }),
   ("password", { required := true, min_length := 1, max_length := 1000, hasPattern := false })]

/-- Model of `SecurityManager.authenticate_user`: rate-limit check first
(returning early when limited), then input validation (recording a failed
attempt when invalid), then the placeholder credential result. -/
def SecurityManager.authenticate_user (rl : RLState) (cfg : SecurityConfig)
    (email password : String) (ip_address : Option String) (now : Int) :
    AuthOutcome × RLState :=
  let rate := AdvancedRateLimiter.is_rate_limited rl cfg email ip_address now
  if rate.1.limited then (.rateLimited rate.1.reset_time, rate.2)
  else
    let v := InputValidator.validate_and_sanitize
      [("email", some email), ("password", some password)] smAuthSchema
    if v.valid then
      (.success { id := "1", email := email, role := "user" }, rate.2)
    else
      (.validationFailed v.errors,
       AdvancedRateLimiter.record_attempt rate.2 email ip_address now false)

/-! ### `User` and `UserManager` (`src/backend/user_model.py`)

Profile fields (`first_name`, `last_name`, `company`, `phone`, timestamps)
play no part in authentication and are not carried. -/

structure User where
  id : String
  email : String
  role : String
  password_hash : Option String
  password_salt : Option String
  is_active : Bool
  deriving DecidableEq, Repr

/-- Model of `User.verify_password`: a falsy stored hash or salt (None or the
empty string) short-circuits to `False`; otherwise the hasher runs (and any
exception it raises propagates). -/
def User.verify_password (pbkdf2 : String → String → Nat → List (Fin 256))
    (u : User) (password : String) : Except PyError Bool :=
  match u.password_hash, u.password_salt with
  | some h, some s =>
    if h = "" || s = "" then .ok false
    else EnhancedHasher.verify_password pbkdf2 password h s 100000
  | _, _ => .ok false

/-- State of a `UserManager`: `_users` (id → user) and `_email_index`
(normalized email → id). -/
structure UMState where
  users : List (String × User)
  email_index : List (String × String)
  deriving DecidableEq, Repr

/-- `email.lower().strip()`, the normalization used by the user store. -/
def pyNormEmail (email : String) : String := pyStrip (pyToLower email)

/-- Model of `UserManager.get_user_by_email`. -/
def UserManager.get_user_by_email (um : UMState) (email : String) : Option User :=
  match alookup um.email_index (pyNormEmail email) with
  | none => none
  | some uid => alookup um.users uid

/-- Model of `UserManager.authenticate_user`: look the user up by email, then
`user and user.verify_password(password) and user.is_active`, short-circuit
left to right.  The `update_last_login` timestamp write on success does not
affect the returned value and is not carried. -/
def UserManager.authenticate_user (pbkdf2 : String → String → Nat → List (Fin 256))
    (um : UMState) (email password : String) : Except PyError (Option User) :=
  match UserManager.get_user_by_email um email with
  | none => .ok none
  | some u =>
    match User.verify_password pbkdf2 u password with
    | .error e => .error e
    | .ok b => if b && u.is_active then .ok (some u) else .ok none

/-! ### The `/login` route (`src/api/auth_routes.py`, lines 37-98) -/

inductive LoginOutcome
  /-- `request.get_json()` returned nothing → 400. -/
  | noData
  /-- Validation failed → 400 with the error list. -/
  | validationFailed (errors : List String)
  /-- Rate limited → 429 with attempts and reset time. -/
  | rateLimited (attempts : Nat) (reset_time : Option Int)
  /-- Credential check failed → 401. -/
  | invalidCredentials
  /-- 200 with both tokens and the user. -/
  | loginOk (access refresh : JwtToken) (user : User)
  /-- An exception reached the catch-all handler → 500. -/
  | serverError
  deriving DecidableEq, Repr

/-- The schema literal of the `/login` route: both fields required with
`min_length` 1, no pattern. -/
def loginSchema : List (String × FieldRules) :=
  [("email", { required := true, min_length := 1, max_length := 1000, hasPattern := false }),
   ("password", { required := true, min_length := 1, max_length := 1000, hasPattern := false })]

/-- `user.to_dict()` restricted to what token generation reads. -/
def userDataOf (u : User) : UserData := { id := u.id, email := u.email, role := u.role }

/-- Model of the `/login` route handler: validate first, then the rate-limit
check on the sanitized email (no IP is passed), then the credential check,
then recording and token issuance.  `session_id`, `jti_a` and `jti_r` stand
for the random values drawn on the success path. -/
def login (pbkdf2 : String → String → Nat → List (Fin 256)) (um : UMState)
    (rl : RLState) (tm : TMState) (cfg : SecurityConfig) (secret_key : String)
    (reqData : Option (List (String × Option String)))
    (session_id jti_a jti_r : String) (now : Int) :
    LoginOutcome × RLState × TMState :=
  match reqData with
  | none => (.noData, rl, tm)
  | some d =>
    let v := InputValidator.validate_and_sanitize d loginSchema
    if !v.valid then (.validationFailed v.errors, rl, tm)
    else
      match pyGet v.data "email", pyGet v.data "password" with
      | some email, some password =>
        let rate := AdvancedRateLimiter.is_rate_limited rl cfg email none now
        if rate.1.limited then
          (.rateLimited rate.1.attempts rate.1.reset_time, rate.2, tm)
        else
          match UserManager.authenticate_user pbkdf2 um email password with
          | .error _ => (.serverError, rate.2, tm)
          | .ok none =>
            (.invalidCredentials,
             AdvancedRateLimiter.record_attempt rate.2 email none now false, tm)
          | .ok (some user) =>
            let rl2 := AdvancedRateLimiter.record_attempt rate.2 email none now true
            let gen := EnhancedTokenManager.generate_access_token tm cfg secret_key
              (userDataOf user) session_id jti_a now
            let refresh := EnhancedTokenManager.generate_refresh_token cfg secret_key
              (userDataOf user) session_id jti_r now
            (.loginOk gen.1 refresh user, rl2, gen.2)
      | _, _ =>
        -- a `KeyError` on the sanitized data would reach the catch-all; with
        -- this schema the keys are always present when validation succeeds
        (.serverError, rl, tm)

/-! ### Concrete fixtures for witnesses and counterexamples -/

/-- A concrete, easily-evaluated digest function instantiating the PBKDF2
parameter in witnesses: a one-byte digest determined by the input lengths. -/
def toyDigest (password salt : String) (rounds : Nat) : List (Fin 256) :=
  [⟨(password.length * 21 + salt.length * 5 + rounds) % 256, by omega⟩]

/-- The production configuration values of `SecurityConfig`. -/
def cfg0 : SecurityConfig :=
  { max_login_attempts := 3, lockout_duration := 1800, token_expiry_hours := 8,
    refresh_token_expiry_days := 7, session_timeout_minutes := 30 }

def emptyTM : TMState := { blacklisted_tokens := [], active_sessions := [] }

def emptyRL : RLState := { attempts := [], ip_attempts := [] }

def emptyUM : UMState := { users := [], email_index := [] }

def aliceData : UserData := { id := "u1", email := "alice@example.com", role := "user" }

/-- A payload whose natural expiry (50) has already passed at the observation
times the counterexamples use. -/
def expiredPayload : TokenPayload :=
  { user_id := "u1", email := "alice@example.com", role := some "user",
    session_id := "s1", iat := 0, exp := 50, iss := "jobtract-system",
    type := .access, jti := some "j1" }

/-- Token-manager state in which `expiredPayload`'s jti is blacklisted and a
session `s1` is live. -/
def tmRevoked : TMState :=
  { blacklisted_tokens := ["j1"],
    active_sessions := [("s1", { user_id := "u1", created_at := 0, last_activity := 0 })] }

/-- Token-manager state holding only the live session `s1`. -/
def tmWithSession : TMState :=
  { blacklisted_tokens := [],
    active_sessions := [("s1", { user_id := "u1", created_at := 0, last_activity := 0 })] }

/-- A not-yet-expired payload bound to session `s1`. -/
def freshPayload : TokenPayload :=
  { user_id := "u1", email := "alice@example.com", role := some "user",
    session_id := "s1", iat := 0, exp := 100000, iss := "jobtract-system",
    type := .access, jti := some "j2" }

/-- Rate-limiter state in which identity `a@b.c` is saturated (three failures
inside the window at observation time 100). -/
def rlSaturated : RLState :=
  { attempts := [("a@b.c", { timestamps := [10, 11, 12], last_success := none })],
    ip_attempts := [] }

/-- The rate-limiter state after three failed attempts (times 10, 20, 30)
for `alice@example.com` from `1.2.3.4`, starting empty. -/
def rlThree : RLState :=
  AdvancedRateLimiter.record_attempt
    (AdvancedRateLimiter.record_attempt
      (AdvancedRateLimiter.record_attempt emptyRL "alice@example.com" (some "1.2.3.4") 10 false)
      "alice@example.com" (some "1.2.3.4") 20 false)
    "alice@example.com" (some "1.2.3.4") 30 false

/-- A user with the correct `toyDigest` credentials for password
`Secret123!` but soft-disabled (`is_active = false`). -/
def inactiveUser : User :=
  { id := "u1", email := "alice@example.com", role := "user",
    password_hash := some (bytesToHex (toyDigest "Secret123!" "salt1" 100000)),
    password_salt := some "salt1", is_active := false }

def inactiveStore : UMState :=
  { users := [("u1", inactiveUser)], email_index := [("alice@example.com", "u1")] }

/-! ## Theorems

Helper lemmas first, then one theorem per claim (with its witness or
counterexample where applicable). -/

theorem alookup_aset {α : Type} (l : List (String × α)) (k : String) (v : α)
    (k2 : String) :
    alookup (aset l k v) k2 = if k2 = k then some v else alookup l k2 := by
  induction l with
  | nil =>
    by_cases h : k2 = k
    · subst h
      simp [aset, alookup]
    · rw [if_neg h]
      have h2 : ¬ k = k2 := fun hk => h hk.symm
      simp [aset, alookup, h2]
  | cons kv rest ih =>
    obtain ⟨k0, v0⟩ := kv
    by_cases h0 : k0 = k
    · subst h0
      by_cases h2 : k2 = k0
      · subst h2
        simp [aset, alookup]
      · rw [if_neg h2]
        have h3 : ¬ k0 = k2 := fun hk => h2 hk.symm
        simp [aset, alookup, h3]
    · by_cases h2 : k0 = k2
      · subst h2
        simp [aset, alookup, h0]
      · simp [aset, alookup, h0, h2, ih]

theorem isAsciiChar_hexDigit (n : Nat) : isAsciiChar (hexDigit n) = true := by
  unfold hexDigit
  rcases Nat.lt_or_ge n 16 with h | h
  · interval_cases n <;> decide
  · rw [List.getD_eq_default]
    · decide
    · have hl : ("0123456789abcdef".data).length = 16 := rfl
      omega

theorem all_ascii_join (l : List (Fin 256)) :
    ((l.map byteToHex).flatten).all isAsciiChar = true := by
  induction l with
  | nil => rfl
  | cons b t ih =>
    have hb : (byteToHex b).all isAsciiChar = true := by
      simp [byteToHex, List.all, isAsciiChar_hexDigit]
    simp only [List.map_cons, List.flatten_cons, List.all_append]
    simp [hb, ih]

theorem isAsciiStr_bytesToHex (l : List (Fin 256)) :
    isAsciiStr (bytesToHex l) = true :=
  all_ascii_join l

theorem hexDigit_inj16 :
    ∀ m n : Fin 16, hexDigit m.val = hexDigit n.val → m = n := by decide

theorem byteToHex_inj (b1 b2 : Fin 256) (h : byteToHex b1 = byteToHex b2) :
    b1 = b2 := by
  simp only [byteToHex, List.cons.injEq, and_true] at h
  obtain ⟨h1, h2⟩ := h
  have hb1 := b1.isLt
  have hb2 := b2.isLt
  have m1 : b1.val / 16 < 16 := by omega
  have m2 : b2.val / 16 < 16 := by omega
  have n1 : b1.val % 16 < 16 := by omega
  have n2 : b2.val % 16 < 16 := by omega
  have e1 := hexDigit_inj16 ⟨_, m1⟩ ⟨_, m2⟩ h1
  have e2 := hexDigit_inj16 ⟨_, n1⟩ ⟨_, n2⟩ h2
  have v1 : b1.val / 16 = b2.val / 16 := congrArg Fin.val e1
  have v2 : b1.val % 16 = b2.val % 16 := congrArg Fin.val e2
  apply Fin.ext
  omega

theorem join_byteToHex_inj :
    ∀ l1 l2 : List (Fin 256),
      (l1.map byteToHex).flatten = (l2.map byteToHex).flatten → l1 = l2 := by
  intro l1
  induction l1 with
  | nil =>
    intro l2 h
    cases l2 with
    | nil => rfl
    | cons b t =>
      exfalso
      simp [byteToHex] at h
  | cons b t ih =>
    intro l2 h
    cases l2 with
    | nil =>
      exfalso
      simp [byteToHex] at h
    | cons b2 t2 =>
      simp only [List.map_cons, List.flatten_cons, byteToHex, List.cons_append,
        List.nil_append, List.cons.injEq] at h
      obtain ⟨h1, h2, h3⟩ := h
      have hb : b = b2 := byteToHex_inj b b2 (by simp [byteToHex, h1, h2])
      have ht : t = t2 := ih t2 (by
        simpa only [byteToHex] using h3)
      rw [hb, ht]

theorem bytesToHex_inj (l1 l2 : List (Fin 256)) (h : bytesToHex l1 = bytesToHex l2) :
    l1 = l2 :=
  join_byteToHex_inj l1 l2 (congrArg String.data h)

/-- A falsy stored hash or salt makes `User.verify_password` return `False`
without consulting the hasher. -/
theorem verify_password_falsy (pbkdf2 : String → String → Nat → List (Fin 256))
    (u : User) (password : String)
    (h : pyTruthy u.password_hash = false ∨ pyTruthy u.password_salt = false) :
    User.verify_password pbkdf2 u password = .ok false := by
  unfold User.verify_password
  rcases hh : u.password_hash with _ | h1
  · rfl
  · rcases hs : u.password_salt with _ | s1
    · rfl
    · rw [hh, hs] at h
      simp only [pyTruthy, bne_eq_false_iff_eq] at h
      rcases h with h | h <;> simp [h]

/-- C7: verifying a password against its own `hash_password` output succeeds,
and verifying any password whose digest differs (the PBKDF2-class hash taken
as the collision-free reference definition) fails. -/
theorem C7_password_verify_roundtrip
    (pbkdf2 : String → String → Nat → List (Fin 256)) (P salt : String) (rounds : Nat) :
    EnhancedHasher.verify_password pbkdf2 P
        (EnhancedHasher.hash_password pbkdf2 P salt rounds).hash
        (EnhancedHasher.hash_password pbkdf2 P salt rounds).salt rounds = .ok true
    ∧ ∀ P2 : String, pbkdf2 P2 salt rounds ≠ pbkdf2 P salt rounds →
        EnhancedHasher.verify_password pbkdf2 P2
          (EnhancedHasher.hash_password pbkdf2 P salt rounds).hash
          (EnhancedHasher.hash_password pbkdf2 P salt rounds).salt rounds = .ok false := by
  constructor
  · unfold EnhancedHasher.verify_password EnhancedHasher.hash_password compare_digest
    simp [isAsciiStr_bytesToHex]
  · intro P2 hne
    have hx : bytesToHex (pbkdf2 P2 salt rounds) ≠ bytesToHex (pbkdf2 P salt rounds) :=
      fun h => hne (bytesToHex_inj _ _ h)
    unfold EnhancedHasher.verify_password EnhancedHasher.hash_password compare_digest
    simp [isAsciiStr_bytesToHex, hx]

/-- C7 witness: the round trip at password `Secret123!`, salt `abc`, 100000
rounds, and a failing verification of `wrongpassword` against it. -/
theorem C7_password_verify_roundtrip_witness :
    EnhancedHasher.verify_password toyDigest "Secret123!"
        (EnhancedHasher.hash_password toyDigest "Secret123!" "abc" 100000).hash
        (EnhancedHasher.hash_password toyDigest "Secret123!" "abc" 100000).salt 100000 = .ok true
    ∧ EnhancedHasher.verify_password toyDigest "wrongpassword"
        (EnhancedHasher.hash_password toyDigest "Secret123!" "abc" 100000).hash
        (EnhancedHasher.hash_password toyDigest "Secret123!" "abc" 100000).salt 100000 = .ok false :=
  ⟨(C7_password_verify_roundtrip toyDigest "Secret123!" "abc" 100000).1,
   (C7_password_verify_roundtrip toyDigest "Secret123!" "abc" 100000).2 "wrongpassword"
     (by decide)⟩

/-- C8 counterexample: against a non-ASCII stored hash, verification raises
`TypeError` out of `secrets.compare_digest` instead of returning `False`;
the claim says verification never raises for any stored hash/salt pair. -/
theorem C8_counterexample :
    EnhancedHasher.verify_password toyDigest "password" "é" "salt" 100000
      = .error .typeError := by
  rfl

/-- C8 (amended): for every ASCII stored hash — including malformed ones such
as non-hex strings — and arbitrary salt, verification is total: it returns a
Boolean, and returns `false` whenever the stored hash differs from the
recomputed one; only a non-ASCII stored hash raises (`TypeError`). -/
theorem C8_verify_total_on_ascii
    (pbkdf2 : String → String → Nat → List (Fin 256))
    (password stored_hash salt : String) (rounds : Nat)
    (hascii : isAsciiStr stored_hash = true) :
    (∃ b : Bool,
       EnhancedHasher.verify_password pbkdf2 password stored_hash salt rounds = .ok b)
    ∧ (stored_hash ≠ (EnhancedHasher.hash_password pbkdf2 password salt rounds).hash →
        EnhancedHasher.verify_password pbkdf2 password stored_hash salt rounds = .ok false) := by
  constructor
  · refine ⟨bytesToHex (pbkdf2 password salt rounds) == stored_hash, ?_⟩
    unfold EnhancedHasher.verify_password EnhancedHasher.hash_password compare_digest
    simp [isAsciiStr_bytesToHex, hascii]
  · intro hne
    have hx : bytesToHex (pbkdf2 password salt rounds) ≠ stored_hash := by
      intro h
      exact hne (by simpa [EnhancedHasher.hash_password] using h.symm)
    unfold EnhancedHasher.verify_password EnhancedHasher.hash_password compare_digest
    simp [isAsciiStr_bytesToHex, hascii, hx]

/-- C8 witness: the ASCII non-hex stored hash `zz` yields `.ok false`. -/
theorem C8_verify_total_on_ascii_witness :
    EnhancedHasher.verify_password toyDigest "password" "zz" "salt" 100000 = .ok false :=
  (C8_verify_total_on_ascii toyDigest "password" "zz" "salt" 100000 (by decide)).2 (by decide)

/-- C10: authentication returns no user whenever the credential is
soft-disabled or has no stored hash/salt, even for a correct password; and
`verify_password` against a missing hash or salt returns `false`. -/
theorem C10_inactive_or_missing_credentials
    (pbkdf2 : String → String → Nat → List (Fin 256)) (um : UMState)
    (email password : String) :
    (∀ u : User,
       pyTruthy u.password_hash = false ∨ pyTruthy u.password_salt = false →
       User.verify_password pbkdf2 u password = .ok false)
    ∧ (∀ u : User, UserManager.get_user_by_email um email = some u →
        u.is_active = false ∨ pyTruthy u.password_hash = false
          ∨ pyTruthy u.password_salt = false →
        ∀ v : User, UserManager.authenticate_user pbkdf2 um email password ≠ .ok (some v)) := by
  constructor
  · exact fun u h => verify_password_falsy pbkdf2 u password h
  · intro u hu hcond v
    unfold UserManager.authenticate_user
    rw [hu]
    rcases hcond with hact | hmiss
    · cases hv : User.verify_password pbkdf2 u password with
      | error e => simp [hv]
      | ok b => simp [hv, hact]
    · simp [verify_password_falsy pbkdf2 u password hmiss]

/-- C10 witness: the soft-disabled user with correct password is rejected,
and a user with no stored hash fails password verification. -/
theorem C10_inactive_or_missing_credentials_witness :
    User.verify_password toyDigest { inactiveUser with password_hash := none } "Secret123!"
      = .ok false
    ∧ UserManager.authenticate_user toyDigest inactiveStore "alice@example.com" "Secret123!"
        ≠ .ok (some inactiveUser) :=
  ⟨(C10_inactive_or_missing_credentials toyDigest inactiveStore "alice@example.com"
      "Secret123!").1 _ (Or.inl (by decide)),
   (C10_inactive_or_missing_credentials toyDigest inactiveStore "alice@example.com"
      "Secret123!").2 inactiveUser (by decide) (Or.inl rfl) inactiveUser⟩

/-! #### Rate-limiter helper lemmas -/

theorem userBucket_record_user_fail (st : RLState) (identifier : String) (now : Int) :
    userBucket (AdvancedRateLimiter.record_user_attempt st identifier now false) identifier
      = userBucket st identifier ++ [now] := by
  unfold AdvancedRateLimiter.record_user_attempt userBucket
  cases halo : alookup st.attempts identifier <;> simp [alookup_aset, halo]

theorem userBucket_record_user_success (st : RLState) (identifier : String) (now : Int) :
    userBucket (AdvancedRateLimiter.record_user_attempt st identifier now true) identifier
      = [] := by
  unfold AdvancedRateLimiter.record_user_attempt userBucket
  simp [alookup_aset]

theorem record_ip_attempt_attempts (st : RLState) (ip : String) (now : Int) (success : Bool) :
    (AdvancedRateLimiter.record_ip_attempt st ip now success).attempts = st.attempts := by
  unfold AdvancedRateLimiter.record_ip_attempt
  cases success <;> simp

theorem record_user_attempt_ip_attempts (st : RLState) (identifier : String) (now : Int)
    (success : Bool) :
    (AdvancedRateLimiter.record_user_attempt st identifier now success).ip_attempts
      = st.ip_attempts := by
  unfold AdvancedRateLimiter.record_user_attempt
  cases success <;> simp

theorem ipBucket_record_ip_fail (st : RLState) (ip : String) (now : Int) :
    ipBucket (AdvancedRateLimiter.record_ip_attempt st ip now false) ip
      = ipBucket st ip ++ [now] := by
  unfold AdvancedRateLimiter.record_ip_attempt ipBucket
  cases halo : alookup st.ip_attempts ip <;> simp [alookup_aset, halo]

theorem ipBucket_record_ip_success (st : RLState) (ip : String) (now : Int) (ip2 : String) :
    ipBucket (AdvancedRateLimiter.record_ip_attempt st ip now true) ip2
      = ipBucket st ip2 := by
  unfold AdvancedRateLimiter.record_ip_attempt ipBucket
  by_cases h : ip2 = ip
  · subst h
    cases halo : alookup st.ip_attempts ip2 <;> simp [alookup_aset, halo]
  · simp [alookup_aset, h]

/-- `userBucket` after `record_attempt` with failure. -/
theorem userBucket_record_fail (st : RLState) (identifier : String)
    (ip_address : Option String) (now : Int) :
    userBucket (AdvancedRateLimiter.record_attempt st identifier ip_address now false)
        identifier
      = userBucket st identifier ++ [now] := by
  unfold AdvancedRateLimiter.record_attempt
  cases ip_address with
  | none => exact userBucket_record_user_fail st identifier now
  | some ip =>
    have h1 := record_ip_attempt_attempts
      (AdvancedRateLimiter.record_user_attempt st identifier now false) ip now false
    unfold userBucket at *
    rw [h1]
    exact userBucket_record_user_fail st identifier now

/-- `ipBucket` after `record_attempt` with failure. -/
theorem ipBucket_record_fail (st : RLState) (identifier ip : String) (now : Int) :
    ipBucket (AdvancedRateLimiter.record_attempt st identifier (some ip) now false) ip
      = ipBucket st ip ++ [now] := by
  unfold AdvancedRateLimiter.record_attempt
  have h1 := record_user_attempt_ip_attempts st identifier now false
  have h2 := ipBucket_record_ip_fail
    (AdvancedRateLimiter.record_user_attempt st identifier now false) ip now
  unfold ipBucket at *
  rw [h2, h1]

/-- C5: recording success empties the identity bucket and leaves every
address bucket unchanged; recording failure appends the timestamp to both the
identity bucket and the address bucket. -/
theorem C5_record_success_and_failure (st : RLState) (identifier ip : String) (now : Int) :
    userBucket (AdvancedRateLimiter.record_attempt st identifier (some ip) now true)
        identifier = []
    ∧ (∀ ip2 : String,
        ipBucket (AdvancedRateLimiter.record_attempt st identifier (some ip) now true) ip2
          = ipBucket st ip2)
    ∧ userBucket (AdvancedRateLimiter.record_attempt st identifier (some ip) now false)
        identifier
      = userBucket st identifier ++ [now]
    ∧ ipBucket (AdvancedRateLimiter.record_attempt st identifier (some ip) now false) ip
      = ipBucket st ip ++ [now] := by
  refine ⟨?_, ?_, userBucket_record_fail st identifier (some ip) now,
    ipBucket_record_fail st identifier ip now⟩
  · unfold AdvancedRateLimiter.record_attempt
    have h1 := record_ip_attempt_attempts
      (AdvancedRateLimiter.record_user_attempt st identifier now true) ip now true
    unfold userBucket at *
    rw [h1]
    exact userBucket_record_user_success st identifier now
  · intro ip2
    unfold AdvancedRateLimiter.record_attempt
    have h1 := record_user_attempt_ip_attempts st identifier now true
    have h2 := ipBucket_record_ip_success
      (AdvancedRateLimiter.record_user_attempt st identifier now true) ip now ip2
    unfold ipBucket at *
    rw [h2, h1]

/-! #### Rate-limit check characterization -/

theorem check_user_limited_iff (st : RLState) (cfg : SecurityConfig)
    (identifier : String) (now : Int) (hmax : 1 ≤ cfg.max_login_attempts) :
    ((AdvancedRateLimiter.check_user_rate_limit st cfg identifier now).1).limited = true ↔
      cfg.max_login_attempts ≤ ((userBucket st identifier).filter (inWindow cfg now)).length := by
  unfold AdvancedRateLimiter.check_user_rate_limit userBucket
  cases halo : alookup st.attempts identifier with
  | none =>
    simp [halo]
    omega
  | some r =>
    by_cases hle : cfg.max_login_attempts ≤ (r.timestamps.filter (inWindow cfg now)).length <;>
      simp [halo, hle]

theorem check_ip_limited_iff (st : RLState) (cfg : SecurityConfig)
    (ip : String) (now : Int) (hmax : 1 ≤ cfg.max_login_attempts) :
    ((AdvancedRateLimiter.check_ip_rate_limit st cfg ip now).1).limited = true ↔
      cfg.max_login_attempts * 3 ≤ ((ipBucket st ip).filter (inWindow cfg now)).length := by
  unfold AdvancedRateLimiter.check_ip_rate_limit ipBucket
  cases halo : alookup st.ip_attempts ip with
  | none =>
    simp [halo]
    omega
  | some r =>
    by_cases hle : cfg.max_login_attempts * 3 ≤ (r.timestamps.filter (inWindow cfg now)).length <;>
      simp [halo, hle]

theorem check_user_ip_attempts (st : RLState) (cfg : SecurityConfig)
    (identifier : String) (now : Int) :
    ((AdvancedRateLimiter.check_user_rate_limit st cfg identifier now).2).ip_attempts
      = st.ip_attempts := by
  unfold AdvancedRateLimiter.check_user_rate_limit
  cases halo : alookup st.attempts identifier with
  | none => rfl
  | some r =>
    by_cases hle : cfg.max_login_attempts ≤ (r.timestamps.filter (inWindow cfg now)).length <;>
      simp [halo, hle]

theorem check_ip_fst_congr (st1 st2 : RLState) (cfg : SecurityConfig) (ip : String)
    (now : Int) (h : st1.ip_attempts = st2.ip_attempts) :
    (AdvancedRateLimiter.check_ip_rate_limit st1 cfg ip now).1
      = (AdvancedRateLimiter.check_ip_rate_limit st2 cfg ip now).1 := by
  unfold AdvancedRateLimiter.check_ip_rate_limit
  rw [h]
  cases halo : alookup st2.ip_attempts ip with
  | none => rfl
  | some r =>
    by_cases hle : cfg.max_login_attempts * 3 ≤ (r.timestamps.filter (inWindow cfg now)).length <;>
      simp [halo, hle]

theorem is_rate_limited_limited (st : RLState) (cfg : SecurityConfig)
    (identifier ip : String) (now : Int) :
    ((AdvancedRateLimiter.is_rate_limited st cfg identifier (some ip) now).1).limited
      = (((AdvancedRateLimiter.check_user_rate_limit st cfg identifier now).1).limited
         || ((AdvancedRateLimiter.check_ip_rate_limit st cfg ip now).1).limited) := by
  unfold AdvancedRateLimiter.is_rate_limited
  have hip := check_ip_fst_congr
    ((AdvancedRateLimiter.check_user_rate_limit st cfg identifier now).2) st cfg ip now
    (check_user_ip_attempts st cfg identifier now)
  dsimp only
  rw [hip]
  by_cases h : (((AdvancedRateLimiter.check_user_rate_limit st cfg identifier now).1).limited
      || ((AdvancedRateLimiter.check_ip_rate_limit st cfg ip now).1).limited) = true <;>
    simp [h]

/-- Either scope saturates the combined check. -/
theorem rate_limited_iff (st : RLState) (cfg : SecurityConfig) (identifier ip : String)
    (now : Int) (hmax : 1 ≤ cfg.max_login_attempts) :
    ((AdvancedRateLimiter.is_rate_limited st cfg identifier (some ip) now).1).limited = true ↔
      (cfg.max_login_attempts
          ≤ ((userBucket st identifier).filter (inWindow cfg now)).length
       ∨ cfg.max_login_attempts * 3
          ≤ ((ipBucket st ip).filter (inWindow cfg now)).length) := by
  rw [is_rate_limited_limited, Bool.or_eq_true,
    check_user_limited_iff st cfg identifier now hmax,
    check_ip_limited_iff st cfg ip now hmax]

/-- C6: the combined check limits exactly when either scope's windowed bucket
count reaches its threshold (`maxAttempts` for the identity,
`3 × maxAttempts` for the address); and with `maxAttempts = 3`, after three
failed attempts for a fresh identity the next check is limited exactly while
the oldest of the three timestamps is still inside the window. -/
theorem C6_rate_limit_thresholds (st : RLState) (cfg : SecurityConfig)
    (identifier ip : String) (now : Int) (hmax : 1 ≤ cfg.max_login_attempts) :
    (((AdvancedRateLimiter.is_rate_limited st cfg identifier (some ip) now).1).limited = true ↔
      (cfg.max_login_attempts
          ≤ ((userBucket st identifier).filter (inWindow cfg now)).length
       ∨ cfg.max_login_attempts * 3
          ≤ ((ipBucket st ip).filter (inWindow cfg now)).length))
    ∧ (cfg.max_login_attempts = 3 → userBucket st identifier = [] → ipBucket st ip = [] →
       ∀ t1 t2 t3 : Int, t1 ≤ t2 → t2 ≤ t3 →
         ∀ now2 : Int,
           (((AdvancedRateLimiter.is_rate_limited
               (AdvancedRateLimiter.record_attempt
                 (AdvancedRateLimiter.record_attempt
                   (AdvancedRateLimiter.record_attempt st identifier (some ip) t1 false)
                   identifier (some ip) t2 false)
                 identifier (some ip) t3 false)
               cfg identifier (some ip) now2).1).limited = true
             ↔ now2 - t1 < cfg.lockout_duration)) := by
  constructor
  · exact rate_limited_iff st cfg identifier ip now hmax
  · intro h3 hu hi t1 t2 t3 h12 h23 now2
    have hu3 : userBucket
        (AdvancedRateLimiter.record_attempt
          (AdvancedRateLimiter.record_attempt
            (AdvancedRateLimiter.record_attempt st identifier (some ip) t1 false)
            identifier (some ip) t2 false)
          identifier (some ip) t3 false) identifier = [t1, t2, t3] := by
      rw [userBucket_record_fail, userBucket_record_fail, userBucket_record_fail, hu]
      simp
    have hi3 : ipBucket
        (AdvancedRateLimiter.record_attempt
          (AdvancedRateLimiter.record_attempt
            (AdvancedRateLimiter.record_attempt st identifier (some ip) t1 false)
            identifier (some ip) t2 false)
          identifier (some ip) t3 false) ip = [t1, t2, t3] := by
      rw [ipBucket_record_fail, ipBucket_record_fail, ipBucket_record_fail, hi]
      simp
    rw [rate_limited_iff _ cfg identifier ip now2 hmax, hu3, hi3, h3]
    by_cases p1 : now2 - t1 < cfg.lockout_duration <;>
      by_cases p2 : now2 - t2 < cfg.lockout_duration <;>
        by_cases p3 : now2 - t3 < cfg.lockout_duration <;>
          simp [List.filter, inWindow, p1, p2, p3] <;> omega

/-- C6 witness: three failures at times 10, 20, 30 for `alice@example.com`
leave the identity limited at time 100 under the production configuration. -/
theorem C6_rate_limit_thresholds_witness :
    ((AdvancedRateLimiter.is_rate_limited rlThree cfg0 "alice@example.com"
        (some "1.2.3.4") 100).1).limited = true := by
  have h := (C6_rate_limit_thresholds emptyRL cfg0 "alice@example.com" "1.2.3.4" 100
    (by decide)).2 rfl rfl rfl 10 20 30 (by decide) (by decide) 100
  exact h.mpr (by decide)

/-! #### Token-manager helper lemmas -/

theorem contains_append_singleton (l : List String) (j : String) :
    (l ++ [j]).contains j = true := by
  induction l with
  | nil => simp
  | cons a t ih => simp

theorem is_token_blacklisted_signed (st : TMState) (key : String) (p : TokenPayload) :
    EnhancedTokenManager.is_token_blacklisted st key (.signed p key)
      = jtiBlacklisted st p := by
  unfold EnhancedTokenManager.is_token_blacklisted jwtDecode jtiBlacklisted
  cases hpj : p.jti with
  | none => simp [hpj]
  | some j => by_cases hjv : j = "" <;> simp [hpj, hjv]

theorem is_session_active_fst (st : TMState) (cfg : SecurityConfig) (sid : String)
    (now : Int) :
    (EnhancedTokenManager.is_session_active st cfg sid now).1
      = sessionLive st cfg sid now := by
  unfold EnhancedTokenManager.is_session_active sessionLive
  by_cases hs : sid = ""
  · simp [hs]
  · simp only [hs, if_neg hs, bne_self_eq_false]
    cases halo : alookup st.active_sessions sid with
    | none => simp [hs]
    | some sess =>
      by_cases ht : cfg.session_timeout_minutes * 60 < now - sess.last_activity
      · have hd : ¬ (now - sess.last_activity ≤ cfg.session_timeout_minutes * 60) := by omega
        simp [hs, ht, hd]
      · have hd : now - sess.last_activity ≤ cfg.session_timeout_minutes * 60 := by omega
        simp [hs, ht, hd]

/-- C2 (amended): `blacklist_token` succeeds for any token whose payload
carries a truthy jti — in particular for tokens already past their expiry,
since the decode ignores expiry and takes no time argument — and inserts the
jti into the blacklist; but it does NOT remove the associated session: the
session map is exactly unchanged. -/
theorem C2_revoke_inserts_but_keeps_session (st : TMState) (key : String)
    (p : TokenPayload) (j : String) (hj : p.jti = some j) (hne : j ≠ "") :
    EnhancedTokenManager.blacklist_token st key (.signed p key)
      = (true, { st with blacklisted_tokens := st.blacklisted_tokens ++ [j] })
    ∧ ((EnhancedTokenManager.blacklist_token st key (.signed p key)).2).active_sessions
        = st.active_sessions := by
  have h1 : EnhancedTokenManager.blacklist_token st key (.signed p key)
      = (true, { st with blacklisted_tokens := st.blacklisted_tokens ++ [j] }) := by
    unfold EnhancedTokenManager.blacklist_token jwtDecode
    simp [hj, hne]
  exact ⟨h1, by rw [h1]⟩

/-- C2 witness: revoking the (long-expired) `expiredPayload` token succeeds
and leaves session `s1` in place. -/
theorem C2_revoke_inserts_but_keeps_session_witness :
    EnhancedTokenManager.blacklist_token tmWithSession "k" (.signed expiredPayload "k")
      = (true,
         { blacklisted_tokens := ["j1"],
           active_sessions :=
             [("s1", { user_id := "u1", created_at := 0, last_activity := 0 })] }) :=
  ((C2_revoke_inserts_but_keeps_session tmWithSession "k" expiredPayload "j1" rfl
      (by decide)).1).trans (by decide)

/-- C2 counterexample: after revoking `expiredPayload`'s token, the session
`s1` it names is still present and still passes the session-liveness check —
the claim says revocation removes the session, making that lookup fail. -/
theorem C2_counterexample :
    (EnhancedTokenManager.blacklist_token tmWithSession "k"
        (.signed expiredPayload "k")).1 = true
    ∧ alookup ((EnhancedTokenManager.blacklist_token tmWithSession "k"
        (.signed expiredPayload "k")).2).active_sessions "s1"
        = some { user_id := "u1", created_at := 0, last_activity := 0 }
    ∧ (EnhancedTokenManager.is_session_active
        (EnhancedTokenManager.blacklist_token tmWithSession "k"
          (.signed expiredPayload "k")).2
        cfg0 "s1" 10).1 = true := by
  exact ⟨by decide, by decide, by decide⟩

/-- C3 (amended): after `blacklist_token` on a token with a truthy jti,
`verify_token` reports the revoked outcome at EVERY instant — both before and
after the token's natural expiry: the in-memory blacklist has no TTL pruning,
so the entry never expires. -/
theorem C3_revoked_at_every_instant (st : TMState) (cfg : SecurityConfig)
    (key : String) (p : TokenPayload) (j : String) (hj : p.jti = some j)
    (hne : j ≠ "") (now : Int) :
    ((EnhancedTokenManager.verify_token
        (EnhancedTokenManager.blacklist_token st key (.signed p key)).2
        cfg key (.signed p key) now).1).outcome = .err .revokedToken := by
  have hbl : ((EnhancedTokenManager.blacklist_token st key (.signed p key)).2).blacklisted_tokens
      = st.blacklisted_tokens ++ [j] := by
    unfold EnhancedTokenManager.blacklist_token jwtDecode
    simp [hj, hne]
  have hmem : ((EnhancedTokenManager.blacklist_token st key
      (.signed p key)).2).blacklisted_tokens.contains j = true := by
    rw [hbl]
    exact contains_append_singleton _ j
  have hflag : EnhancedTokenManager.is_token_blacklisted
      ((EnhancedTokenManager.blacklist_token st key (.signed p key)).2) key
      (.signed p key) = true := by
    rw [is_token_blacklisted_signed]
    unfold jtiBlacklisted
    rw [hj, hbl]
    simp [hne]
  unfold EnhancedTokenManager.verify_token
  simp [hflag]
  rfl

/-- C3 witness: the revoked `expiredPayload` token (natural expiry 50) is
reported revoked both before (time 40) and after (time 100000) expiry. -/
theorem C3_revoked_at_every_instant_witness :
    ((EnhancedTokenManager.verify_token
        (EnhancedTokenManager.blacklist_token emptyTM "k" (.signed expiredPayload "k")).2
        cfg0 "k" (.signed expiredPayload "k") 40).1).outcome = .err .revokedToken
    ∧ ((EnhancedTokenManager.verify_token
        (EnhancedTokenManager.blacklist_token emptyTM "k" (.signed expiredPayload "k")).2
        cfg0 "k" (.signed expiredPayload "k") 100000).1).outcome = .err .revokedToken :=
  ⟨C3_revoked_at_every_instant emptyTM cfg0 "k" expiredPayload "j1" rfl (by decide) 40,
   C3_revoked_at_every_instant emptyTM cfg0 "k" expiredPayload "j1" rfl (by decide) 100000⟩

/-- C3 counterexample: at time 100000, long past the token's natural expiry
(50), verification still reports the REVOKED outcome — the claim says the
blacklist entry would have been pruned by then and the result would be
expired/invalid, not revoked. -/
theorem C3_counterexample :
    expiredPayload.exp < 100000
    ∧ ((EnhancedTokenManager.verify_token
        (EnhancedTokenManager.blacklist_token emptyTM "k" (.signed expiredPayload "k")).2
        cfg0 "k" (.signed expiredPayload "k") 100000).1).outcome = .err .revokedToken := by
  exact ⟨by decide, by decide⟩

/-- C1 (amended): the outcome of `verify_token` is the first failing step of
the order blacklist → signature/structure → expiry → session liveness (the
`code_verify_order` reference; a token whose decode fails is treated as not
blacklisted and reported invalid), and on full success the verified session's
`last_activity` is touched to `now`. -/
theorem C1_verify_checks_order (st : TMState) (cfg : SecurityConfig) (key : String)
    (token : JwtToken) (now : Int) :
    ((EnhancedTokenManager.verify_token st cfg key token now).1).outcome
      = code_verify_order st cfg key token now
    ∧ (∀ p : TokenPayload, ∀ sess : SessionInfo,
        code_verify_order st cfg key token now = .ok p →
        alookup st.active_sessions p.session_id = some sess →
        alookup ((EnhancedTokenManager.verify_token st cfg key token now).2).active_sessions
            p.session_id
          = some { sess with last_activity := now }) := by
  cases token with
  | malformed =>
    constructor
    · rfl
    · intro q sess hcode hlook
      exact absurd hcode (by simp [code_verify_order])
  | signed p k =>
    by_cases hk : k = key
    · subst hk
      by_cases hbl : jtiBlacklisted st p = true
      · constructor
        · simp [EnhancedTokenManager.verify_token, is_token_blacklisted_signed, hbl,
            code_verify_order, VerifyResult.outcome]
        · intro q sess hcode hlook
          exact absurd hcode (by simp [code_verify_order, hbl])
      · by_cases hexp : p.exp ≤ now
        · constructor
          · simp [EnhancedTokenManager.verify_token, is_token_blacklisted_signed, hbl,
              jwtDecode, hexp, code_verify_order, VerifyResult.outcome]
          · intro q sess hcode hlook
            exact absurd hcode (by simp [code_verify_order, hbl, hexp])
        · by_cases hlive : sessionLive st cfg p.session_id now = true
          · have hsid : ¬ (p.session_id = "") := by
              intro h0
              simp [sessionLive, h0] at hlive
            cases halo : alookup st.active_sessions p.session_id with
            | none =>
              exfalso
              simp [sessionLive, halo] at hlive
            | some sess2 =>
              have htime : now - sess2.last_activity ≤ cfg.session_timeout_minutes * 60 := by
                by_contra hcon
                simp [sessionLive, halo, hcon] at hlive
              have hnotlt :
                  ¬ (cfg.session_timeout_minutes * 60 < now - sess2.last_activity) := by
                omega
              constructor
              · simp [EnhancedTokenManager.verify_token, is_token_blacklisted_signed, hbl,
                  jwtDecode, hexp, EnhancedTokenManager.is_session_active, hsid, halo,
                  hnotlt, code_verify_order, hlive, VerifyResult.outcome]
              · intro q sess hcode hlook
                have hq : p = q := by
                  simpa [code_verify_order, hbl, hexp, hlive] using hcode
                subst hq
                rw [halo] at hlook
                have hsess : sess2 = sess := by
                  injection hlook
                subst hsess
                simp [EnhancedTokenManager.verify_token, is_token_blacklisted_signed, hbl,
                  jwtDecode, hexp, EnhancedTokenManager.is_session_active, hsid, halo,
                  hnotlt, alookup_aset]
          · constructor
            · have hfst := is_session_active_fst st cfg p.session_id now
              simp [EnhancedTokenManager.verify_token, is_token_blacklisted_signed, hbl,
                jwtDecode, hexp, code_verify_order, hlive, VerifyResult.outcome, hfst]
            · intro q sess hcode hlook
              exact absurd hcode (by simp [code_verify_order, hbl, hexp, hlive])
    · constructor
      · simp [EnhancedTokenManager.verify_token, EnhancedTokenManager.is_token_blacklisted,
          jwtDecode, hk, code_verify_order, VerifyResult.outcome]
      · intro q sess hcode hlook
        exact absurd hcode (by simp [code_verify_order, hk])

/-- C1 witness: on the fresh token the code order yields success, and the
session's `last_activity` is touched to the verification time (10). -/
theorem C1_verify_checks_order_witness :
    ((EnhancedTokenManager.verify_token tmWithSession cfg0 "k"
        (.signed freshPayload "k") 10).1).outcome
      = code_verify_order tmWithSession cfg0 "k" (.signed freshPayload "k") 10
    ∧ alookup ((EnhancedTokenManager.verify_token tmWithSession cfg0 "k"
        (.signed freshPayload "k") 10).2).active_sessions "s1"
        = some { user_id := "u1", created_at := 0, last_activity := 10 } := by
  have h := C1_verify_checks_order tmWithSession cfg0 "k" (.signed freshPayload "k") 10
  refine ⟨h.1, ?_⟩
  exact h.2 freshPayload { user_id := "u1", created_at := 0, last_activity := 0 }
    (by decide) (by decide)

/-- C1 counterexample: a token that is both expired (exp 50 < 200) and
blacklisted is reported REVOKED by the code, while the claimed order
(signature → expiry → blacklist → session) reports EXPIRED: the earliest
failing step in the claimed order is the expiry check. -/
theorem C1_counterexample :
    ((EnhancedTokenManager.verify_token tmRevoked cfg0 "k"
        (.signed expiredPayload "k") 200).1).outcome = .err .revokedToken
    ∧ spec_verify_order tmRevoked cfg0 "k" (.signed expiredPayload "k") 200
        = .err .expiredToken := by
  exact ⟨by decide, by decide⟩

/-- C9: verifying a freshly issued access token at issuance time — the jti
not having been blacklisted, a truthy session id, and the configured
expiry/timeouts positive as in the source configuration — succeeds, and the
returned payload's `user_id` is the issuing user's id. -/
theorem C9_issue_verify_roundtrip (st : TMState) (cfg : SecurityConfig) (key : String)
    (user : UserData) (sid jti : String) (now : Int)
    (hjti : st.blacklisted_tokens.contains jti = false)
    (hsid : ¬ (sid = ""))
    (hexp : 0 < cfg.token_expiry_hours)
    (htmo : 0 ≤ cfg.session_timeout_minutes) :
    ∃ p : TokenPayload,
      (EnhancedTokenManager.verify_token
          (EnhancedTokenManager.generate_access_token st cfg key user sid jti now).2
          cfg key
          (EnhancedTokenManager.generate_access_token st cfg key user sid jti now).1
          now).1
        = { valid := true, payload := some p, expired := false, error := none }
      ∧ p.user_id = user.id := by
  refine ⟨{ user_id := user.id, email := user.email, role := some user.role,
            session_id := sid, iat := now,
            exp := now + cfg.token_expiry_hours * 3600,
            iss := "jobtract-system", type := .access, jti := some jti },
    ?_, rfl⟩
  have hpos : (0 : Int) < cfg.token_expiry_hours * 3600 :=
    mul_pos hexp (by norm_num)
  have hnotexp : ¬ (now + cfg.token_expiry_hours * 3600 ≤ now) := by omega
  have hnl : ¬ (cfg.session_timeout_minutes * 60 < 0) := by
    have := mul_nonneg htmo (by norm_num : (0 : Int) ≤ 60)
    omega
  have hmem : jti ∉ st.blacklisted_tokens := by simpa using hjti
  by_cases hj : jti = "" <;>
    simp [EnhancedTokenManager.generate_access_token, EnhancedTokenManager.track_session,
      EnhancedTokenManager.verify_token, EnhancedTokenManager.is_token_blacklisted,
      EnhancedTokenManager.is_session_active, jwtDecode, hj, hmem, hsid, hnotexp, hnl,
      alookup_aset]

/-- C9 witness: issuing for `aliceData` on the empty manager and verifying at
time 0 under the production configuration. -/
theorem C9_issue_verify_roundtrip_witness :
    ∃ p : TokenPayload,
      (EnhancedTokenManager.verify_token
          (EnhancedTokenManager.generate_access_token emptyTM cfg0 "k" aliceData
            "s9" "j9" 0).2
          cfg0 "k"
          (EnhancedTokenManager.generate_access_token emptyTM cfg0 "k" aliceData
            "s9" "j9" 0).1
          0).1
        = { valid := true, payload := some p, expired := false, error := none }
      ∧ p.user_id = aliceData.id :=
  C9_issue_verify_roundtrip emptyTM cfg0 "k" aliceData "s9" "j9" 0
    (by decide) (by decide) (by decide) (by decide)

/-- C4 (amended): `SecurityManager.authenticate_user` performs the rate-limit
check first — a limited caller gets the rate-limited result (with its reset
time) regardless of the input, before validation or any credential work; the
`/login` route, by contrast, validates and sanitizes the input FIRST and runs
the rate-limit check second, on the sanitized email (still before any
credential lookup). -/
theorem C4_rate_limit_vs_validation_order
    (pbkdf2 : String → String → Nat → List (Fin 256)) (um : UMState) (rl : RLState)
    (tm : TMState) (cfg : SecurityConfig) (key : String) (email password : String)
    (ip_address : Option String) (d : List (String × Option String))
    (session_id jti_a jti_r : String) (now : Int) :
    (((AdvancedRateLimiter.is_rate_limited rl cfg email ip_address now).1).limited = true →
      (SecurityManager.authenticate_user rl cfg email password ip_address now).1
        = .rateLimited
            ((AdvancedRateLimiter.is_rate_limited rl cfg email ip_address now).1).reset_time)
    ∧ ((InputValidator.validate_and_sanitize d loginSchema).valid = false →
        (login pbkdf2 um rl tm cfg key (some d) session_id jti_a jti_r now).1
          = .validationFailed (InputValidator.validate_and_sanitize d loginSchema).errors)
    ∧ ((InputValidator.validate_and_sanitize d loginSchema).valid = true →
        pyGet (InputValidator.validate_and_sanitize d loginSchema).data "email"
          = some email →
        pyGet (InputValidator.validate_and_sanitize d loginSchema).data "password"
          = some password →
        ((AdvancedRateLimiter.is_rate_limited rl cfg email none now).1).limited = true →
        (login pbkdf2 um rl tm cfg key (some d) session_id jti_a jti_r now).1
          = .rateLimited
              ((AdvancedRateLimiter.is_rate_limited rl cfg email none now).1).attempts
              ((AdvancedRateLimiter.is_rate_limited rl cfg email none now).1).reset_time) := by
  refine ⟨?_, ?_, ?_⟩
  · intro h
    unfold SecurityManager.authenticate_user
    simp [h]
  · intro h
    unfold login
    simp [h]
  · intro hv he hp hlim
    unfold login
    simp [hv, he, hp, hlim]

/-- C4 witness: in `rlSaturated` the identity `a@b.c` is limited, so
`SecurityManager.authenticate_user` rejects before validating, and a valid
login request for that identity is answered 429 before the credential
lookup. -/
theorem C4_rate_limit_vs_validation_order_witness :
    (SecurityManager.authenticate_user rlSaturated cfg0 "a@b.c" "pw" none 100).1
      = .rateLimited (some 1810)
    ∧ (login toyDigest emptyUM rlSaturated emptyTM cfg0 "k"
        (some [("email", some "a@b.c"), ("password", some "pw")]) "s" "ja" "jr" 100).1
      = .rateLimited 3 (some 1810) := by
  have h := C4_rate_limit_vs_validation_order toyDigest emptyUM rlSaturated emptyTM cfg0
    "k" "a@b.c" "pw" none [("email", some "a@b.c"), ("password", some "pw")]
    "s" "ja" "jr" 100
  refine ⟨(h.1 (by decide)).trans (by decide), ?_⟩
  exact (h.2.2 (by decide) (by decide) (by decide) (by decide)).trans (by decide)

/-- C4 counterexample: at time 100 the identity `a@b.c` IS rate-limited in
`rlSaturated`, yet a login request for it with an invalid body (empty
password) is answered with the validation failure, not the rate-limited
rejection — the route runs input validation before the rate-limit check,
where the claim requires the rate-limit rejection to come first. -/
theorem C4_counterexample :
    ((AdvancedRateLimiter.is_rate_limited rlSaturated cfg0 "a@b.c" none 100).1).limited
      = true
    ∧ (login toyDigest emptyUM rlSaturated emptyTM cfg0 "k"
        (some [("email", some "a@b.c"), ("password", some "")]) "s" "ja" "jr" 100).1
      = .validationFailed ["password is required"] := by
  exact ⟨by decide, by decide⟩

end Jobtract
